import Mathlib

/-!
Shallow embedding of the Solana payout engine: the `SolanaPayoutService`
class (constructor, `initialize`, `executePayment`, `executeSolTransfer`,
`executeTokenTransfer`, the balance guards, `sendTransaction`,
`confirmTransaction`) and the GitHub-Action driver `main`.

Modelling conventions:
- every RPC round trip is an observed result recorded in a `Connection`
  value: a throwing call is `Except.error msg`, a successful one
  `Except.ok v`;
- a thrown JS exception is `Except.error` of a `PayoutError`; an
  exception that the service merely propagates (no `catch` of its own)
  is wrapped as `PayoutError.raised msg`;
- JS floating-point amounts are modelled over `ℚ` (exact arithmetic),
  raw token units over `ℤ`, lamport balances over `ℕ`;
- the ordered side effects of one invocation are collected in a trace
  of `Event`s (validation steps, transaction assembly, balance checks,
  submission, confirmation polling).
-/

namespace SolanaPayout

abbrev Addr := String

/-- LAMPORTS_PER_SOL from @solana/web3.js (10^9 lamports per SOL). -/
def LAMPORTS_PER_SOL : ℚ := 1000000000

/-- The keys of the NETWORK_URLS table in src/constants/index.ts. -/
def NETWORK_URLS : List String := ["mainnet-beta", "devnet", "testnet"]

/-- TRANSACTION_FEE_BUFFER = 0.05 * LAMPORTS_PER_SOL (declared in the
constants module; the current balance guard does not use it). -/
def TRANSACTION_FEE_BUFFER : ℚ := (5 / 100) * LAMPORTS_PER_SOL

/-- TOKEN_ACCOUNT_CREATION_COST = 0.003 * LAMPORTS_PER_SOL (declared in the
constants module; the current balance guard does not use it). -/
def TOKEN_ACCOUNT_CREATION_COST : ℚ := (3 / 1000) * LAMPORTS_PER_SOL

/-- The mint metadata fetched by `getMint` (address, supply, decimals). -/
structure Mint where
  address : Addr
  supply : Nat
  decimals : Nat
deriving DecidableEq, Repr

/-- The fields of `(await connection.getSignatureStatus sig).value` that the
confirmation loop reads: `err` and `confirmationStatus`. -/
structure SigStatus where
  err : Option String
  confirmationStatus : Option String
deriving DecidableEq, Repr

/-- Observed results of the RPC calls one invocation makes.
`getSignatureStatus n` is the response to the n-th status poll. -/
structure Connection where
  isOnCurve : Addr → Bool
  getAccountInfo : Addr → Except String Bool
  getMint : Except String Mint
  getMinimumBalanceForRentExemptAccount : Except String Nat
  getLatestBlockhash : Except String String
  getFeeForMessage : Except String (Option Nat)
  getBalance : Except String Nat
  getTokenAccountBalance : Except String (Option ℚ)
  sendTx : Except String String
  getSignatureStatus : Nat → Except String (Option SigStatus)

/-- The instance state of `SolanaPayoutService` after the constructor ran;
`mint` is `none` until `initialize` sets it for token transfers. -/
structure SolanaPayoutService where
  sender : Addr
  recipient : Addr
  amount : ℚ
  token : String
  network : String
  timeout : Nat
  mint : Option Mint

/-- The errors the service throws, by site (messages in `PayoutError.message`).
`raised` is an exception from a lower layer that the service propagates
without wrapping. -/
inductive PayoutError where
  | secretNotSet
  | amountNotPositive
  | timeoutNotPositive
  | invalidNetwork
  | invalidSecret
  | invalidRecipientFormat (addr : Addr)
  | invalidWalletAddress (addr : Addr)
  | invalidToken (token : String)
  | mintNotInitialized
  | accountCheckFailed (addr : Addr)
  | feeUnavailable
  | insufficientSol (network : String) (balanceSol requiredSol txFeeSol : ℚ)
  | insufficientToken (network : String) (balance : Option ℚ) (required : ℚ)
      (mintAddress : Addr)
  | senderAtaMissing
  | sendFailed
  | txFailed (onChainErr : String)
  | confirmTimeout (timeoutMs : Nat) (signature : String)
      (lastStatus : Option String)
  | raised (msg : String)
deriving DecidableEq, Repr

/-- Render a rational for an error message. -/
def ratStr (q : ℚ) : String := toString q.num ++ "/" ++ toString q.den

/-- The message of each thrown error, mirroring the strings in the source. -/
def PayoutError.message : PayoutError → String
  | .secretNotSet =>
      "Environment variable SENDER_WALLET_SECRET is not set, please set it in the repository secrets"
  | .amountNotPositive => "Amount must be a positive number"
  | .timeoutNotPositive => "Timeout must be a positive number"
  | .invalidNetwork =>
      "Invalid network specified. Must be one of: mainnet-beta, devnet, testnet"
  | .invalidSecret =>
      "Invalid wallet secret format. Please provide a valid base58 encoded private key."
  | .invalidRecipientFormat a => "Invalid recipient wallet address format: " ++ a
  | .invalidWalletAddress a => "Invalid wallet address format: " ++ a
  | .invalidToken t =>
      "Invalid SPL token: " ++ t ++ ". Please provide a valid SPL token address."
  | .mintNotInitialized => "Token mint information not initialized"
  | .accountCheckFailed a => "Failed to check account existence: " ++ a
  | .feeUnavailable => "Failed to get transaction fee"
  | .insufficientSol net bal req fee =>
      "Insufficient funds in sender wallet on " ++ net ++ " network. Balance: " ++
        ratStr bal ++ " SOL, Required: " ++ ratStr req ++
        " SOL (including transaction fee of " ++ ratStr fee ++ " SOL)"
  | .insufficientToken net bal req mintA =>
      "Insufficient funds in sender token account on " ++ net ++ " network. Balance: " ++
        (match bal with | none => "null" | some b => ratStr b) ++ " " ++ mintA ++
        ", Required: " ++ ratStr req ++ " " ++ mintA
  | .senderAtaMissing =>
      "Sender address does not have an associated token account to complete the transfer"
  | .sendFailed =>
      "Transaction failed to send. Please check the logs for more details."
  | .txFailed e => "Transaction failed: " ++ e
  | .confirmTimeout t sig last =>
      "Transaction not confirmed within " ++ toString t ++
        " ms. Confirmation status unknown. Check signature: " ++ sig ++
        ". Last confirmation status: " ++
        (match last with | none => "undefined" | some c => c)
  | .raised m => m

/-- The deterministic associated-token-account derivation
(`getAssociatedTokenAddressSync(mint, owner, ...)`): a pure function of
mint address and owner address. -/
def getAssociatedTokenAddressSync (mintAddress owner : Addr) : Addr :=
  "ata/" ++ mintAddress ++ "/" ++ owner

/-- JS `String.prototype.toUpperCase` on the ASCII strings involved:
uppercase every character. -/
def toUpperCase (s : String) : String := String.mk (s.data.map Char.toUpper)

/-- `this.isTokenTransfer = token.toUpperCase() !== "SOL"` from the
constructor. -/
def isTokenTransfer (svc : SolanaPayoutService) : Bool :=
  !(toUpperCase svc.token == "SOL")

/-- One ledger instruction, as assembled by the service. -/
inductive Instruction where
  | solTransfer (fromPubkey toPubkey : Addr) (lamports : ℚ)
  | createAta (payer ata owner mintAddress : Addr)
  | tokenTransfer (source destination owner : Addr) (amount : ℤ)
deriving DecidableEq, Repr

/-- The ordered observable steps of one invocation. -/
inductive Event where
  | walletValidated (address : Addr)
  | tokenValidated
  | assembled (instructions : List Instruction)
  | solBalanceChecked
  | tokenBalanceChecked
  | submitted (signature : String)
  | confirmPolled
deriving DecidableEq, Repr

/-- `checkAccountExists`: `getAccountInfo` null-check; a throwing call is
caught and re-thrown as `Failed to check account existence`. -/
def checkAccountExists (conn : Connection) (address : Addr) :
    Except PayoutError Bool :=
  match conn.getAccountInfo address with
  | Except.ok b => Except.ok b
  | Except.error _ => Except.error (PayoutError.accountCheckFailed address)

/-- `validateWalletAddress`: the address must be on the signing curve. -/
def validateWalletAddress (conn : Connection) (address : Addr) :
    Except PayoutError Unit :=
  if conn.isOnCurve address then Except.ok ()
  else Except.error (PayoutError.invalidWalletAddress address)

/-- `validateTokenAddress`: fetch the mint; any failure becomes
`Invalid SPL token`. -/
def validateTokenAddress (conn : Connection) (tokenAddress : String) :
    Except PayoutError Mint :=
  match conn.getMint with
  | Except.ok m => Except.ok m
  | Except.error _ => Except.error (PayoutError.invalidToken tokenAddress)

/-- `validateSenderSolBalance(transaction)`: fetch the fee for the assembled
message (a null or zero `txFee.value` is falsy and throws), fetch the
sender balance, and require
`sol >= txFeeSol + (isTokenTransfer ? 0 : amount)` in SOL. -/
def validateSenderSolBalance (svc : SolanaPayoutService) (conn : Connection) :
    Except PayoutError Unit :=
  match conn.getFeeForMessage with
  | Except.error e => Except.error (PayoutError.raised e)
  | Except.ok none => Except.error PayoutError.feeUnavailable
  | Except.ok (some f) =>
    if f = 0 then Except.error PayoutError.feeUnavailable
    else
      let txFeeSol : ℚ := (f : ℚ) / LAMPORTS_PER_SOL
      match conn.getBalance with
      | Except.error e => Except.error (PayoutError.raised e)
      | Except.ok lamports =>
        let sol : ℚ := (lamports : ℚ) / LAMPORTS_PER_SOL
        let totalCost : ℚ := txFeeSol + (if isTokenTransfer svc then 0 else svc.amount)
        if sol < totalCost then
          Except.error (PayoutError.insufficientSol svc.network sol totalCost txFeeSol)
        else Except.ok ()

/-- `validateSenderTokenBalance`: read `value.uiAmount` of the sender's
associated token account (a throwing call is re-thrown unchanged) and
require it to be truthy and at least `this.amount`; the comparison is in
UI (decimal) units. -/
def validateSenderTokenBalance (svc : SolanaPayoutService) (conn : Connection) :
    Except PayoutError Unit :=
  match svc.mint with
  | none => Except.error PayoutError.mintNotInitialized
  | some m =>
    match conn.getTokenAccountBalance with
    | Except.error e => Except.error (PayoutError.raised e)
    | Except.ok uiAmount =>
      match uiAmount with
      | none =>
          Except.error (PayoutError.insufficientToken svc.network none svc.amount m.address)
      | some b =>
        if b = 0 then
          Except.error (PayoutError.insufficientToken svc.network (some 0) svc.amount m.address)
        else if b < svc.amount then
          Except.error (PayoutError.insufficientToken svc.network (some b) svc.amount m.address)
        else Except.ok ()

/-- `sendTransaction`: submit; any rejection is caught and re-thrown as the
generic submission failure. -/
def sendTransaction (conn : Connection) : Except PayoutError String :=
  match conn.sendTx with
  | Except.ok signature => Except.ok signature
  | Except.error _ => Except.error PayoutError.sendFailed

/-- How the `while (attempts < maxAttempts)` loop of `confirmTransaction`
exits: a thrown status query, an on-chain error, a break on `"confirmed"`,
or exhaustion of the attempt budget (carrying the last seen status). -/
inductive LoopExit where
  | threw (e : String)
  | onErr (e : String)
  | brk
  | exhausted (lastStatus : Option String)
deriving DecidableEq, Repr

/-- The confirmation polling loop: `fuel` is the remaining attempt budget,
`attempt` the index of the next status query, the third argument the
current value of the `commitment` variable.  Returns how the loop exited
and how many status queries it performed. -/
def confirmGo (query : Nat → Except String (Option SigStatus)) :
    Nat → Nat → Option String → LoopExit × Nat
  | 0, _, commitment => (LoopExit.exhausted commitment, 0)
  | fuel + 1, attempt, _ =>
    match query attempt with
    | Except.error e => (LoopExit.threw e, 1)
    | Except.ok status =>
      match status.bind SigStatus.err with
      | some e => (LoopExit.onErr e, 1)
      | none =>
        let commitment := status.bind SigStatus.confirmationStatus
        if commitment = some "confirmed" then (LoopExit.brk, 1)
        else
          let r := confirmGo query fuel (attempt + 1) commitment
          (r.1, r.2 + 1)

/-- `confirmTransaction(signature)`: poll up to
`maxAttempts = Math.ceil(timeout / 1000)` times, then require the last
seen confirmation status to be exactly `"confirmed"`.  Also returns the
number of status queries performed. -/
def confirmTransaction (svc : SolanaPayoutService) (conn : Connection)
    (signature : String) : Except PayoutError Unit × Nat :=
  let maxAttempts := (svc.timeout + 999) / 1000
  match confirmGo conn.getSignatureStatus maxAttempts 0 none with
  | (LoopExit.threw e, n) => (Except.error (PayoutError.raised e), n)
  | (LoopExit.onErr e, n) => (Except.error (PayoutError.txFailed e), n)
  | (LoopExit.brk, n) => (Except.ok (), n)
  | (LoopExit.exhausted c, n) =>
    if c = some "confirmed" then (Except.ok (), n)
    else (Except.error (PayoutError.confirmTimeout svc.timeout signature c), n)

/-- `executeSolTransfer`: build the single transfer instruction, assemble and
sign a versioned transaction against a fresh blockhash, validate the
sender's SOL balance, submit, and confirm. -/
def executeSolTransfer (svc : SolanaPayoutService) (conn : Connection) :
    List Event × Except PayoutError String :=
  let instructions :=
    [Instruction.solTransfer svc.sender svc.recipient (svc.amount * LAMPORTS_PER_SOL)]
  match conn.getLatestBlockhash with
  | Except.error e => ([], Except.error (PayoutError.raised e))
  | Except.ok _ =>
    let ev0 := [Event.assembled instructions]
    match validateSenderSolBalance svc conn with
    | Except.error e => (ev0, Except.error e)
    | Except.ok _ =>
      let ev1 := ev0 ++ [Event.solBalanceChecked]
      match sendTransaction conn with
      | Except.error e => (ev1, Except.error e)
      | Except.ok signature =>
        let ev2 := ev1 ++ [Event.submitted signature]
        match (confirmTransaction svc conn signature).1 with
        | Except.error e => (ev2, Except.error e)
        | Except.ok _ => (ev2 ++ [Event.confirmPolled], Except.ok signature)

/-- The conditional funding step of the token path: when the recipient base
account does not exist, a native transfer of the minimum rent-exempt
balance funds its creation. -/
def buildFunding (svc : SolanaPayoutService) (conn : Connection)
    (recipientExists : Bool) : Except PayoutError (List Instruction) :=
  if recipientExists then Except.ok []
  else
    match conn.getMinimumBalanceForRentExemptAccount with
    | Except.error e => Except.error (PayoutError.raised e)
    | Except.ok minRent =>
      Except.ok [Instruction.solTransfer svc.sender svc.recipient (minRent : ℚ)]

/-- `executeTokenTransfer`: require the mint, derive the sender's associated
token account and require it to exist, fund the recipient's base account
with the rent-exempt minimum when missing, create the recipient's
associated token account when missing, append the raw-unit token
transfer, assemble and sign, validate SOL and token balances, submit,
and confirm. -/
def executeTokenTransfer (svc : SolanaPayoutService) (conn : Connection) :
    List Event × Except PayoutError String :=
  match svc.mint with
  | none => ([], Except.error PayoutError.mintNotInitialized)
  | some m =>
    let transferAmount : ℤ := Int.floor (svc.amount * (10 : ℚ) ^ m.decimals)
    let senderAta := getAssociatedTokenAddressSync m.address svc.sender
    match checkAccountExists conn senderAta with
    | Except.error e => ([], Except.error e)
    | Except.ok senderAtaExists =>
      if senderAtaExists then
        match checkAccountExists conn svc.recipient with
        | Except.error e => ([], Except.error e)
        | Except.ok recipientExists =>
          match buildFunding svc conn recipientExists with
          | Except.error e => ([], Except.error e)
          | Except.ok fundIns =>
            let recipientAta := getAssociatedTokenAddressSync m.address svc.recipient
            match checkAccountExists conn recipientAta with
            | Except.error e => ([], Except.error e)
            | Except.ok recipientAtaExists =>
              let createIns :=
                if recipientAtaExists then []
                else [Instruction.createAta svc.sender recipientAta svc.recipient m.address]
              let instructions :=
                fundIns ++ createIns ++
                  [Instruction.tokenTransfer senderAta recipientAta svc.sender transferAmount]
              match conn.getLatestBlockhash with
              | Except.error e => ([], Except.error (PayoutError.raised e))
              | Except.ok _ =>
                let ev0 := [Event.assembled instructions]
                match validateSenderSolBalance svc conn with
                | Except.error e => (ev0, Except.error e)
                | Except.ok _ =>
                  let ev1 := ev0 ++ [Event.solBalanceChecked]
                  match validateSenderTokenBalance svc conn with
                  | Except.error e => (ev1, Except.error e)
                  | Except.ok _ =>
                    let ev2 := ev1 ++ [Event.tokenBalanceChecked]
                    match sendTransaction conn with
                    | Except.error e => (ev2, Except.error e)
                    | Except.ok signature =>
                      let ev3 := ev2 ++ [Event.submitted signature]
                      match (confirmTransaction svc conn signature).1 with
                      | Except.error e => (ev3, Except.error e)
                      | Except.ok _ => (ev3 ++ [Event.confirmPolled], Except.ok signature)
      else ([], Except.error PayoutError.senderAtaMissing)

/-- `initialize()`: validate the sender wallet, then the recipient wallet,
then (for token transfers) the token address, returning the fetched mint. -/
def initService (svc : SolanaPayoutService) (conn : Connection) :
    List Event × Except PayoutError (Option Mint) :=
  match validateWalletAddress conn svc.sender with
  | Except.error e => ([], Except.error e)
  | Except.ok _ =>
    let ev0 := [Event.walletValidated svc.sender]
    match validateWalletAddress conn svc.recipient with
    | Except.error e => (ev0, Except.error e)
    | Except.ok _ =>
      let ev1 := ev0 ++ [Event.walletValidated svc.recipient]
      if isTokenTransfer svc then
        match validateTokenAddress conn svc.token with
        | Except.error e => (ev1, Except.error e)
        | Except.ok m => (ev1 ++ [Event.tokenValidated], Except.ok (some m))
      else (ev1, Except.ok none)

/-- `executePayment()`: branch on the transfer type set by the constructor. -/
def executePayment (svc : SolanaPayoutService) (conn : Connection) :
    List Event × Except PayoutError String :=
  if isTokenTransfer svc then executeTokenTransfer svc conn
  else executeSolTransfer svc conn

/-- One full invocation of the service after construction:
`initialize()` then `executePayment()`, with the combined event trace. -/
def runPayout (svc0 : SolanaPayoutService) (conn : Connection) :
    List Event × Except PayoutError String :=
  match initService svc0 conn with
  | (tr, Except.error e) => (tr, Except.error e)
  | (tr, Except.ok mint) =>
    let svc := { svc0 with mint := mint }
    let r := executePayment svc conn
    (tr ++ r.1, r.2)

/-- The raw action inputs as the driver `main` sees them after parsing:
`amount = none` models a NaN `parseFloat`, the Booleans model whether the
secret is present, decodes to a keypair, and whether the recipient string
parses as a public key. -/
structure Inputs where
  secretPresent : Bool
  secretValid : Bool
  senderAddress : Addr
  recipientWalletAddress : Addr
  recipientParses : Bool
  amount : Option ℚ
  token : String
  network : String
  timeout : Int

/-- The `SolanaPayoutService` constructor: validate amount, timeout and
network, decode the secret, parse the recipient, and record the fields
(`mint` starts null). -/
def mkService (inp : Inputs) : Except PayoutError SolanaPayoutService :=
  match inp.amount with
  | none => Except.error PayoutError.amountNotPositive
  | some a =>
    if a ≤ 0 then Except.error PayoutError.amountNotPositive
    else if inp.timeout ≤ 0 then Except.error PayoutError.timeoutNotPositive
    else if !(NETWORK_URLS.contains inp.network) then
      Except.error PayoutError.invalidNetwork
    else if !inp.secretValid then Except.error PayoutError.invalidSecret
    else if !inp.recipientParses then
      Except.error (PayoutError.invalidRecipientFormat inp.recipientWalletAddress)
    else
      Except.ok
        { sender := inp.senderAddress
          recipient := inp.recipientWalletAddress
          amount := a
          token := inp.token
          network := inp.network
          timeout := inp.timeout.toNat
          mint := none }

/-- What the driver's try-block computes: the secret check, the constructor,
then the full payout run. -/
def actionResult (inp : Inputs) (conn : Connection) :
    Except PayoutError String :=
  if !inp.secretPresent then Except.error PayoutError.secretNotSet
  else
    match mkService inp with
    | Except.error e => Except.error e
    | Except.ok svc => (runPayout svc conn).2

/-- The three GitHub-Action outputs. -/
structure Outputs where
  success : String
  error : String
  transaction : String
deriving DecidableEq, Repr

/-- The driver `main`: on success set `("true", "", signature)`, on any
caught error set `("false", error.message, "")`. -/
def runAction (inp : Inputs) (conn : Connection) : Outputs :=
  match actionResult inp conn with
  | Except.ok signature => { success := "true", error := "", transaction := signature }
  | Except.error e => { success := "false", error := e.message, transaction := "" }

/-- True on the events emitted by the validation stage. -/
def isValidationEvt : Event → Bool
  | Event.walletValidated _ => true
  | Event.tokenValidated => true
  | _ => false

/-- True on the transaction-assembly event. -/
def isAssembledEvt : Event → Bool
  | Event.assembled _ => true
  | _ => false

/-- True on the balance-guard events. -/
def isBalanceEvt : Event → Bool
  | Event.solBalanceChecked => true
  | Event.tokenBalanceChecked => true
  | _ => false

/-- True on the submission event. -/
def isSubmittedEvt : Event → Bool
  | Event.submitted _ => true
  | _ => false

/-- True on the confirmation-polling event. -/
def isConfirmEvt : Event → Bool
  | Event.confirmPolled => true
  | _ => false

/-- True when the guard result is the insufficient-SOL error. -/
def isInsufficientSol : Except PayoutError Unit → Bool
  | Except.error (PayoutError.insufficientSol _ _ _ _) => true
  | _ => false

/-- True when the result is the confirmation-timeout error. -/
def isConfirmTimeout : Except PayoutError Unit → Bool
  | Except.error (PayoutError.confirmTimeout _ _ _) => true
  | _ => false

/-- A status-poll response that is non-terminal for the loop: no thrown
query, no on-chain error, and a confirmation status other than
`"confirmed"`. -/
def nonTerminalB : Except String (Option SigStatus) → Bool
  | Except.ok status =>
      (status.bind SigStatus.err == none) &&
        !(status.bind SigStatus.confirmationStatus == some "confirmed")
  | Except.error _ => false

/-- `allBefore p q l` holds when every `p`-event of `l` occurs strictly
before every `q`-event of `l`. -/
def allBefore (p q : Event → Bool) : List Event → Bool
  | [] => true
  | x :: xs =>
    (if q x then xs.all (fun y => !(p y)) else true) && allBefore p q xs

/-! Concrete fixtures used by witnesses and counterexamples. -/

/-- A 2-decimals mint fixture. -/
def mintX : Mint := { address := "MINT", supply := 1000, decimals := 2 }

/-- An all-successful connection fixture. -/
def connOk : Connection :=
  { isOnCurve := fun _ => true
    getAccountInfo := fun _ => Except.ok true
    getMint := Except.ok mintX
    getMinimumBalanceForRentExemptAccount := Except.ok 2039280
    getLatestBlockhash := Except.ok "BH"
    getFeeForMessage := Except.ok (some 5000)
    getBalance := Except.ok 10000000000
    getTokenAccountBalance := Except.ok (some 100)
    sendTx := Except.ok "SIG"
    getSignatureStatus := fun _ =>
      Except.ok (some { err := none, confirmationStatus := some "confirmed" }) }

/-- A token-transfer service fixture (amount 5, devnet, 1 s timeout). -/
def svcTok : SolanaPayoutService :=
  { sender := "S", recipient := "R", amount := 5, token := "MINT"
    network := "devnet", timeout := 1000, mint := some mintX }

/-- A SOL-transfer service fixture. -/
def svcSol : SolanaPayoutService :=
  { sender := "S", recipient := "R", amount := 1, token := "SOL"
    network := "devnet", timeout := 1000, mint := none }

/-- The SOL-transfer fixture with a 2040 ms timeout. -/
def svcSol2040 : SolanaPayoutService := { svcSol with timeout := 2040 }

/-- A status-poll response with no error and the given confirmation status. -/
def statusResp (c : String) : Except String (Option SigStatus) :=
  Except.ok (some { err := none, confirmationStatus := some c })

/-- A connection whose status polls always answer `"processed"`. -/
def connProcessed : Connection :=
  { connOk with getSignatureStatus := fun _ => statusResp "processed" }

/-- A connection whose status polls always answer `"finalized"`. -/
def connFinalized : Connection :=
  { connOk with getSignatureStatus := fun _ => statusResp "finalized" }


/-- The SOL-transfer fixture sending one lamport. -/
def svcSolTiny : SolanaPayoutService :=
  { svcSol with amount := (1 : ℚ) / LAMPORTS_PER_SOL }

/-- A connection where the sender holds exactly 5000 lamports and the fee
estimate is 5000 lamports. -/
def connPoor5000 : Connection := { connOk with getBalance := Except.ok 5000 }

/-- The token-transfer fixture requesting 0.105 tokens. -/
def svcFrac : SolanaPayoutService := { svcTok with amount := 21 / 200 }

/-- A connection where the sender token account holds 10 raw units of a
2-decimals token, i.e. a uiAmount of 0.1. -/
def connUiTenth : Connection :=
  { connOk with getTokenAccountBalance := Except.ok (some (1 / 10)) }

/-- A connection where the sender's associated token account exists but the
recipient base account and associated token account do not, and the sender
holds exactly 5000 lamports — the fee estimate, with nothing left for the
two account creations. -/
def connProvision : Connection :=
  { connOk with
    getAccountInfo := fun a => Except.ok (a == getAssociatedTokenAddressSync "MINT" "S")
    getBalance := Except.ok 5000 }

/-- A connection where the sender token account uiAmount is 2. -/
def connUiTwo : Connection :=
  { connOk with getTokenAccountBalance := Except.ok (some 2) }

/-- The SOL-transfer fixture with mixed-case token string "Sol". -/
def svcSolMixedCase : SolanaPayoutService := { svcSol with token := "Sol" }

/-- A connection where the sender's associated token account is absent. -/
def connNoSenderAta : Connection :=
  { connOk with getAccountInfo := fun a => Except.ok (!(a == getAssociatedTokenAddressSync "MINT" "S")) }

/-- A fully valid set of driver inputs: SOL transfer of 1 on devnet. -/
def inpOk : Inputs :=
  { secretPresent := true, secretValid := true, senderAddress := "S"
    recipientWalletAddress := "R", recipientParses := true, amount := some 1
    token := "SOL", network := "devnet", timeout := 1000 }

/-- A connection whose blockhash fetch throws an exception with an empty
message. -/
def connBadBh : Connection := { connOk with getLatestBlockhash := Except.error "" }

/-! Helper lemmas. -/

/-- If every status poll is non-terminal, the confirmation loop runs its
whole fuel budget and exits exhausted with a non-`"confirmed"` status. -/
theorem confirmGo_nonTerminal (query : Nat → Except String (Option SigStatus))
    (h : ∀ n, nonTerminalB (query n) = true) :
    ∀ fuel attempt c, c ≠ some "confirmed" →
      ∃ c2, confirmGo query fuel attempt c = (LoopExit.exhausted c2, fuel) ∧
        c2 ≠ some "confirmed" := by
  intro fuel
  induction fuel with
  | zero => exact fun attempt c hc => ⟨c, rfl, hc⟩
  | succ n ih =>
    intro attempt c hc
    have hq := h attempt
    match hquery : query attempt with
    | Except.error e => simp [nonTerminalB, hquery] at hq
    | Except.ok status =>
      rw [hquery] at hq
      simp only [nonTerminalB, Bool.and_eq_true, beq_iff_eq, Bool.not_eq_true',
        beq_eq_false_iff_ne, ne_eq] at hq
      obtain ⟨herr, hcs⟩ := hq
      obtain ⟨c2, heq, hc2⟩ := ih (attempt + 1) (status.bind SigStatus.confirmationStatus) hcs
      refine ⟨c2, ?_, hc2⟩
      unfold confirmGo
      simp [hquery, herr, hcs, heq]

/-- C2: for every timeout > 0, if every status query returns a non-terminal
state (no on-chain error, a confirmation status other than the required
`"confirmed"` level), `confirmTransaction` performs exactly
`ceil(timeout_ms / 1000)` status queries (one per loop iteration) and then
terminates with the confirmation-timeout error; it never loops
indefinitely. -/
theorem c2_confirm_loop_attempt_budget (svc : SolanaPayoutService)
    (conn : Connection) (signature : String)
    (_ht : 0 < svc.timeout)
    (h : ∀ n, nonTerminalB (conn.getSignatureStatus n) = true) :
    isConfirmTimeout (confirmTransaction svc conn signature).1 = true ∧
      (confirmTransaction svc conn signature).2 = (svc.timeout + 999) / 1000 := by
  obtain ⟨c2, heq, hc2⟩ :=
    confirmGo_nonTerminal conn.getSignatureStatus h ((svc.timeout + 999) / 1000) 0 none
      (by simp)
  simp [confirmTransaction, heq, hc2, isConfirmTimeout]

/-- C2 witness: with a 2040 ms timeout and a source that always answers
`"processed"`, the loop performs ceil(2040/1000) = 3 queries and times out. -/
theorem c2_confirm_loop_attempt_budget_witness :
    isConfirmTimeout (confirmTransaction svcSol2040 connProcessed "SIG").1 = true ∧
      (confirmTransaction svcSol2040 connProcessed "SIG").2 = 3 :=
  c2_confirm_loop_attempt_budget _ _ "SIG" (by decide) (fun _ => rfl)

/-- C9: the poller accepts only the exact status string `"confirmed"`: if
every poll reports `"finalized"` with no on-chain error, the loop exhausts
its budget and raises the confirmation-timeout error anyway. -/
theorem c9_finalized_not_accepted (svc : SolanaPayoutService)
    (conn : Connection) (signature : String)
    (_ht : 0 < svc.timeout)
    (h : ∀ n, conn.getSignatureStatus n =
      Except.ok (some { err := none, confirmationStatus := some "finalized" })) :
    isConfirmTimeout (confirmTransaction svc conn signature).1 = true := by
  have hnt : ∀ n, nonTerminalB (conn.getSignatureStatus n) = true := fun n => by
    rw [h n]; decide
  obtain ⟨c2, heq, hc2⟩ :=
    confirmGo_nonTerminal conn.getSignatureStatus hnt ((svc.timeout + 999) / 1000) 0 none
      (by simp)
  simp [confirmTransaction, heq, hc2, isConfirmTimeout]

/-- C9 witness: a source that always answers `"finalized"` still yields the
confirmation-timeout error. -/
theorem c9_finalized_not_accepted_witness :
    isConfirmTimeout (confirmTransaction svcSol connFinalized "SIG").1 = true :=
  c9_finalized_not_accepted _ _ "SIG" (by decide) (fun _ => rfl)

/-- C3: for every native transfer with amount a > 0 (in lamports, the
smallest unit) and an obtained fee estimate f > 0, the SOL balance guard
raises the insufficient-funds error exactly when the sender balance (in
lamports) is below f + a; in particular a balance of exactly f + a - 1
lamports is rejected. -/
theorem c3_sol_guard_fee_plus_amount (svc : SolanaPayoutService)
    (conn : Connection) (f a lamports : Nat)
    (htok : isTokenTransfer svc = false)
    (hamt : svc.amount = (a : ℚ) / LAMPORTS_PER_SOL)
    (hfee : conn.getFeeForMessage = Except.ok (some f))
    (hbal : conn.getBalance = Except.ok lamports)
    (hf : 0 < f) (ha : 0 < a) :
    (isInsufficientSol (validateSenderSolBalance svc conn) = true ↔
        lamports < f + a) ∧
      (lamports = f + a - 1 →
        isInsufficientSol (validateSenderSolBalance svc conn) = true) := by
  have hL : (0 : ℚ) < LAMPORTS_PER_SOL := by norm_num [LAMPORTS_PER_SOL]
  have hkey : ((lamports : ℚ) / LAMPORTS_PER_SOL <
      (f : ℚ) / LAMPORTS_PER_SOL + (a : ℚ) / LAMPORTS_PER_SOL) ↔
      lamports < f + a := by
    rw [div_add_div_same, div_lt_div_iff_of_pos_right hL]
    exact_mod_cast Iff.rfl
  have hf0 : ¬ f = 0 := by omega
  have hmain : isInsufficientSol (validateSenderSolBalance svc conn) = true ↔
      lamports < f + a := by
    rw [← hkey]
    simp only [validateSenderSolBalance, hfee, hbal, htok, hamt, hf0,
      if_false, Bool.false_eq_true]
    split_ifs with hc <;> simp [isInsufficientSol, hc]
  refine ⟨hmain, fun hl => hmain.mpr ?_⟩
  omega

/-- C3 witness: fee 5000, amount 1 lamport, balance 5000 = fee + 1 - 1 is
rejected with the insufficient-funds error. -/
theorem c3_sol_guard_fee_plus_amount_witness :
    isInsufficientSol (validateSenderSolBalance svcSolTiny connPoor5000) = true :=
  (c3_sol_guard_fee_plus_amount svcSolTiny connPoor5000 5000 1 5000 (by decide) rfl
      rfl rfl (by decide) (by decide)).2 (by decide)

/-- C4 (amended): the token-balance check is performed in UI (decimal)
units, not raw units: with the fetched `uiAmount` b, it fails with the
insufficient-token-balance error — naming the network, the observed
balance, the required amount and the token contract — exactly when b is
missing, zero, or less than the requested decimal amount; equivalently,
for a raw balance `raw` of a `d`-decimals token, exactly when
`raw / 10^d < amount`. -/
theorem c4_token_balance_ui_units (svc : SolanaPayoutService)
    (conn : Connection) (m : Mint) (b : Option ℚ)
    (hm : svc.mint = some m)
    (hb : conn.getTokenAccountBalance = Except.ok b)
    (hpos : 0 < svc.amount) :
    (validateSenderTokenBalance svc conn =
        Except.error (PayoutError.insufficientToken svc.network b svc.amount m.address)
      ↔ (b.getD 0 = 0 ∨ b.getD 0 < svc.amount)) ∧
    (∀ raw d : Nat, b = some ((raw : ℚ) / 10 ^ d) →
      (validateSenderTokenBalance svc conn =
          Except.error (PayoutError.insufficientToken svc.network b svc.amount m.address)
        ↔ (raw : ℚ) / 10 ^ d < svc.amount)) := by
  have hmain : validateSenderTokenBalance svc conn =
      Except.error (PayoutError.insufficientToken svc.network b svc.amount m.address)
      ↔ (b.getD 0 = 0 ∨ b.getD 0 < svc.amount) := by
    simp only [validateSenderTokenBalance, hm, hb]
    cases b with
    | none => simp
    | some q =>
      by_cases h0 : q = 0
      · subst h0; simp
      · by_cases hlt : q < svc.amount
        · simp [hlt, h0]
        · simp [hlt, h0]
  refine ⟨hmain, fun raw d hraw => ?_⟩
  subst hraw
  rw [hmain]
  simp only [Option.getD_some]
  constructor
  · rintro (h | h)
    · rw [h]; exact hpos
    · exact h
  · exact fun h => Or.inr h

/-- C4 counterexample: requesting 0.105 of a 2-decimals token against a raw
balance of 10 units (uiAmount 0.1), the check fails even though the raw
balance 10 is not below the floored raw requirement
floor(0.105 * 10^2) = 10 — so the comparison is not the claimed raw-unit
one. -/
theorem c4_counterexample_ui_not_raw :
    validateSenderTokenBalance svcFrac connUiTenth =
        Except.error (PayoutError.insufficientToken "devnet" (some (1 / 10))
          (21 / 200) "MINT") ∧
      ¬ ((10 : ℤ) < Int.floor ((21 / 200 : ℚ) * (10 : ℚ) ^ (2 : ℕ))) := by
  constructor
  · norm_num [validateSenderTokenBalance, svcFrac, svcTok, connUiTenth, connOk, mintX]
  · have hfloor : Int.floor ((21 / 200 : ℚ) * (10 : ℚ) ^ (2 : ℕ)) = 10 := by
      rw [show ((21 / 200 : ℚ) * (10 : ℚ) ^ (2 : ℕ)) = 21 / 2 by norm_num]
      rw [Int.floor_eq_iff] ; norm_num
    rw [hfloor]
    omega

/-- C4 witness: a uiAmount of 2 against a requested amount of 5 yields the
insufficient-token-balance error. -/
theorem c4_token_balance_ui_units_witness :
    validateSenderTokenBalance svcTok connUiTwo =
      Except.error (PayoutError.insufficientToken "devnet" (some 2) 5 "MINT") :=
  ((c4_token_balance_ui_units svcTok connUiTwo mintX (some 2) rfl rfl
      (by norm_num [svcTok])).1).mpr (by norm_num [svcTok])

/-- C1 (code bug): for token transfers the SOL balance guard requires only
the transaction fee — it adds no provisioning cost for the accounts to be
created.  With the recipient base account and associated token account both
missing (two accounts to create) and a sender balance of exactly the
5000-lamport fee estimate, the run passes the guard and submits
successfully, although the balance is far below
fee + 2 × TOKEN_ACCOUNT_CREATION_COST required by the claim (and by the
guard's own in-code comment). -/
theorem c1_token_guard_omits_provisioning :
    (executeTokenTransfer svcTok connProvision).2 = Except.ok "SIG" ∧
      (5000 : ℚ) < 5000 + 2 * TOKEN_ACCOUNT_CREATION_COST := by
  have h1 : ("R" : String) ≠ "ata/" ++ "MINT" ++ "/" ++ "S" := by decide
  have h2 : ("ata/" ++ "MINT" ++ "/" ++ "R" : String) ≠ "ata/" ++ "MINT" ++ "/" ++ "S" := by
    decide
  have htokP : toUpperCase "MINT" ≠ "SOL" := by decide
  constructor
  · norm_num [executeTokenTransfer, buildFunding, svcTok, mintX, connProvision, connOk,
      checkAccountExists, getAssociatedTokenAddressSync, isTokenTransfer, htokP,
      h1, h2, validateSenderSolBalance, validateSenderTokenBalance, sendTransaction,
      confirmTransaction, confirmGo, statusResp, LAMPORTS_PER_SOL]
  · norm_num [TOKEN_ACCOUNT_CREATION_COST, LAMPORTS_PER_SOL]

/-- C10: the transfer-type branch compares `toUpperCase(token)` against
`"SOL"`: whenever the uppercased token equals `"SOL"` the engine takes the
native-coin path, and for every other string it takes the token path. -/
theorem c10_transfer_type_dispatch (svc : SolanaPayoutService)
    (conn : Connection) :
    (toUpperCase svc.token = "SOL" →
        executePayment svc conn = executeSolTransfer svc conn) ∧
      (toUpperCase svc.token ≠ "SOL" →
        executePayment svc conn = executeTokenTransfer svc conn) := by
  unfold executePayment isTokenTransfer
  constructor
  · intro h; simp [h]
  · intro h; simp [h]

/-- C10 witness: the token string `"Sol"` uppercases to `"SOL"` and is
dispatched to the native-coin path. -/
theorem c10_transfer_type_dispatch_witness :
    toUpperCase "Sol" = "SOL" ∧
      executePayment svcSolMixedCase connOk = executeSolTransfer svcSolMixedCase connOk :=
  ⟨by decide, (c10_transfer_type_dispatch svcSolMixedCase connOk).1 (by decide)⟩

/-- The funding step never emits a create-associated-token-account
instruction. -/
theorem buildFunding_no_createAta (svc : SolanaPayoutService) (conn : Connection)
    (b : Bool) (l : List Instruction) (payer ata owner mintA : Addr)
    (h : buildFunding svc conn b = Except.ok l)
    (hin : Instruction.createAta payer ata owner mintA ∈ l) : False := by
  unfold buildFunding at h
  split at h
  · simp_all
  · split at h
    · exact absurd h (by simp)
    · simp only [Except.ok.injEq] at h
      subst h
      simp at hin

/-- Any `createAta` instruction in any list the token path assembles creates
the recipient's associated token account, never the sender's. -/
theorem assembled_createAta_owner (svc : SolanaPayoutService) (conn : Connection)
    (instrs : List Instruction) (payer ata owner mintA : Addr)
    (hmem : Event.assembled instrs ∈ (executeTokenTransfer svc conn).1)
    (hins : Instruction.createAta payer ata owner mintA ∈ instrs) :
    owner = svc.recipient := by
  simp only [executeTokenTransfer] at hmem
  repeat' split at hmem
  all_goals try simp_all
  all_goals first
    | exact (buildFunding_no_createAta _ _ _ _ _ _ _ _ (by assumption) (by assumption)).elim
    | (rcases hins with hins | ⟨-, -, howner, -⟩
       · exact (buildFunding_no_createAta _ _ _ _ _ _ _ _ (by assumption) hins).elim
       · exact howner)

/-- C5: for every token transfer whose sender has no associated token
account for the target token, the path fails terminally with the
sender-token-account-missing error, with an empty event trace (nothing
assembled, nothing submitted); moreover the token path never assembles a
create-associated-token-account instruction for the sender's own account —
every such instruction it ever assembles is for the recipient. -/
theorem c5_sender_ata_missing_terminal (svc : SolanaPayoutService)
    (conn : Connection) (m : Mint)
    (hm : svc.mint = some m)
    (hs : conn.getAccountInfo (getAssociatedTokenAddressSync m.address svc.sender) =
      Except.ok false) :
    executeTokenTransfer svc conn = ([], Except.error PayoutError.senderAtaMissing) ∧
      ∀ (svc2 : SolanaPayoutService) (conn2 : Connection)
        (instrs : List Instruction) (payer ata owner mintA : Addr),
        Event.assembled instrs ∈ (executeTokenTransfer svc2 conn2).1 →
        Instruction.createAta payer ata owner mintA ∈ instrs →
        owner = svc2.recipient := by
  constructor
  · simp [executeTokenTransfer, hm, checkAccountExists, hs]
  · exact fun svc2 conn2 instrs payer ata owner mintA hmem hins =>
      assembled_createAta_owner svc2 conn2 instrs payer ata owner mintA hmem hins

/-- C5 witness: with the sender's associated token account absent, the run
is `([], senderAtaMissing)`. -/
theorem c5_sender_ata_missing_terminal_witness :
    executeTokenTransfer svcTok connNoSenderAta =
      ([], Except.error PayoutError.senderAtaMissing) :=
  (c5_sender_ata_missing_terminal svcTok connNoSenderAta mintX rfl rfl).1

/-- C6: for every token transfer where the recipient base account and the
recipient associated token account are both absent, the assembled
instruction list contains the rent-exempt funding transfer strictly before
the create-associated-token-account instruction, which strictly precedes
the raw-unit token-transfer instruction. -/
theorem c6_fund_create_transfer_order (svc : SolanaPayoutService)
    (conn : Connection) (m : Mint) (r : Nat) (bh : String)
    (hm : svc.mint = some m)
    (hs : conn.getAccountInfo (getAssociatedTokenAddressSync m.address svc.sender) =
      Except.ok true)
    (hr : conn.getAccountInfo svc.recipient = Except.ok false)
    (hra : conn.getAccountInfo (getAssociatedTokenAddressSync m.address svc.recipient) =
      Except.ok false)
    (hrent : conn.getMinimumBalanceForRentExemptAccount = Except.ok r)
    (hbh : conn.getLatestBlockhash = Except.ok bh) :
    ∃ instrs, Event.assembled instrs ∈ (executeTokenTransfer svc conn).1 ∧
      List.Sublist
        [Instruction.solTransfer svc.sender svc.recipient (r : ℚ),
         Instruction.createAta svc.sender
           (getAssociatedTokenAddressSync m.address svc.recipient) svc.recipient m.address,
         Instruction.tokenTransfer (getAssociatedTokenAddressSync m.address svc.sender)
           (getAssociatedTokenAddressSync m.address svc.recipient) svc.sender
           (Int.floor (svc.amount * (10 : ℚ) ^ m.decimals))]
        instrs := by
  refine ⟨[Instruction.solTransfer svc.sender svc.recipient (r : ℚ),
      Instruction.createAta svc.sender
        (getAssociatedTokenAddressSync m.address svc.recipient) svc.recipient m.address,
      Instruction.tokenTransfer (getAssociatedTokenAddressSync m.address svc.sender)
        (getAssociatedTokenAddressSync m.address svc.recipient) svc.sender
        (Int.floor (svc.amount * (10 : ℚ) ^ m.decimals))],
    ?_, List.Sublist.refl _⟩
  simp [executeTokenTransfer, buildFunding, hm, checkAccountExists, hs, hr, hra,
    hrent, hbh]
  repeat' split
  all_goals simp_all

/-- C6 witness: with recipient account and recipient associated token
account both missing, the assembled list is exactly funding, create,
transfer in that order. -/
theorem c6_fund_create_transfer_order_witness :
    ∃ instrs, Event.assembled instrs ∈ (executeTokenTransfer svcTok connProvision).1 ∧
      List.Sublist
        [Instruction.solTransfer svcTok.sender svcTok.recipient ((2039280 : Nat) : ℚ),
         Instruction.createAta svcTok.sender
           (getAssociatedTokenAddressSync mintX.address svcTok.recipient)
           svcTok.recipient mintX.address,
         Instruction.tokenTransfer
           (getAssociatedTokenAddressSync mintX.address svcTok.sender)
           (getAssociatedTokenAddressSync mintX.address svcTok.recipient) svcTok.sender
           (Int.floor (svcTok.amount * (10 : ℚ) ^ mintX.decimals))]
        instrs :=
  c6_fund_create_transfer_order svcTok connProvision mintX 2039280 "BH" rfl rfl rfl rfl
    rfl rfl

/-- Taking a prefix preserves `List.all`. -/
theorem all_take {α : Type} (f : α → Bool) (l : List α) (k : Nat)
    (h : l.all f = true) : (l.take k).all f = true := by
  induction l generalizing k with
  | nil => simp
  | cons x xs ih =>
    cases k with
    | zero => simp
    | succ n =>
      simp only [List.take_succ_cons, List.all_cons, Bool.and_eq_true] at h ⊢
      exact ⟨h.1, ih n h.2⟩

/-- A trace with no `q`-events satisfies `allBefore p q`. -/
theorem allBefore_of_no_q (p q : Event → Bool) (l : List Event)
    (h : l.all (fun e => !(q e)) = true) : allBefore p q l = true := by
  induction l with
  | nil => rfl
  | cons x xs ih =>
    simp only [List.all_cons, Bool.and_eq_true, Bool.not_eq_true'] at h
    simp [allBefore, h.1, ih h.2]

/-- A trace with no `p`-events satisfies `allBefore p q`. -/
theorem allBefore_of_no_p (p q : Event → Bool) (l : List Event)
    (h : l.all (fun e => !(p e)) = true) : allBefore p q l = true := by
  induction l with
  | nil => rfl
  | cons x xs ih =>
    simp only [List.all_cons, Bool.and_eq_true] at h
    simp [allBefore, h.2, ih h.2]

/-- If the first block has no `q`-events and the second block satisfies
`allBefore p q`, the concatenation satisfies `allBefore p q`. -/
theorem allBefore_append_right (p q : Event → Bool) (l1 l2 : List Event)
    (h1 : l1.all (fun e => !(q e)) = true)
    (h2 : allBefore p q l2 = true) : allBefore p q (l1 ++ l2) = true := by
  induction l1 with
  | nil => simpa using h2
  | cons x xs ih =>
    simp only [List.all_cons, Bool.and_eq_true, Bool.not_eq_true'] at h1
    simp [allBefore, h1.1, ih h1.2]

/-- Taking a prefix preserves `allBefore`. -/
theorem allBefore_take (p q : Event → Bool) (l : List Event) (k : Nat)
    (h : allBefore p q l = true) : allBefore p q (l.take k) = true := by
  induction l generalizing k with
  | nil => simp [List.take_nil]; rfl
  | cons x xs ih =>
    cases k with
    | zero => rfl
    | succ n =>
      simp only [List.take_succ_cons]
      unfold allBefore at h ⊢
      simp only [Bool.and_eq_true] at h ⊢
      refine ⟨?_, ih n h.2⟩
      by_cases hq : q x
      · simp only [hq, if_true] at h ⊢
        exact all_take _ _ _ h.1
      · simp [hq]

/-- The event trace of `initService` is always a prefix of
validate-sender, validate-recipient, validate-token. -/
theorem initService_trace_shape (svc : SolanaPayoutService) (conn : Connection) :
    ∃ k, (initService svc conn).1 =
      ([Event.walletValidated svc.sender, Event.walletValidated svc.recipient,
        Event.tokenValidated]).take k := by
  simp only [initService]
  repeat' split
  all_goals first
    | exact ⟨0, rfl⟩
    | exact ⟨1, rfl⟩
    | exact ⟨2, rfl⟩
    | exact ⟨3, rfl⟩

/-- The event trace of `executeSolTransfer` is always a prefix of assemble,
SOL-balance check, submit, confirm. -/
theorem executeSolTransfer_trace_shape (svc : SolanaPayoutService)
    (conn : Connection) :
    ∃ k i s, (executeSolTransfer svc conn).1 =
      ([Event.assembled i, Event.solBalanceChecked, Event.submitted s,
        Event.confirmPolled]).take k := by
  simp only [executeSolTransfer]
  repeat' split
  all_goals first
    | exact ⟨0, [], "", rfl⟩
    | exact ⟨1, _, "", rfl⟩
    | exact ⟨2, _, "", rfl⟩
    | exact ⟨3, _, _, rfl⟩
    | exact ⟨4, _, _, rfl⟩

/-- The event trace of `executeTokenTransfer` is always a prefix of
assemble, SOL-balance check, token-balance check, submit, confirm. -/
theorem executeTokenTransfer_trace_shape (svc : SolanaPayoutService)
    (conn : Connection) :
    ∃ k i s, (executeTokenTransfer svc conn).1 =
      ([Event.assembled i, Event.solBalanceChecked, Event.tokenBalanceChecked,
        Event.submitted s, Event.confirmPolled]).take k := by
  simp only [executeTokenTransfer]
  repeat' split
  all_goals first
    | exact ⟨0, [], "", rfl⟩
    | exact ⟨1, _, "", rfl⟩
    | exact ⟨2, _, "", rfl⟩
    | exact ⟨3, _, "", rfl⟩
    | exact ⟨4, _, _, rfl⟩
    | exact ⟨5, _, _, rfl⟩

/-- The event trace of `executePayment` has one of the two transfer-path
shapes. -/
theorem executePayment_trace_shape (svc : SolanaPayoutService)
    (conn : Connection) :
    (∃ k i s, (executePayment svc conn).1 =
        ([Event.assembled i, Event.solBalanceChecked, Event.submitted s,
          Event.confirmPolled]).take k) ∨
      (∃ k i s, (executePayment svc conn).1 =
        ([Event.assembled i, Event.solBalanceChecked, Event.tokenBalanceChecked,
          Event.submitted s, Event.confirmPolled]).take k) := by
  unfold executePayment
  by_cases h : isTokenTransfer svc
  · simp only [h, if_true]
    exact Or.inr (executeTokenTransfer_trace_shape svc conn)
  · simp only [h, if_false, Bool.false_eq_true]
    exact Or.inl (executeSolTransfer_trace_shape svc conn)

/-- The stage-ordering facts shared by both transfer-path trace shapes:
no validation events, assembly before balance checks, balance checks
before submission, submission before confirmation. -/
theorem execTrace_props (tr : List Event)
    (hsh : (∃ k i s, tr =
        ([Event.assembled i, Event.solBalanceChecked, Event.submitted s,
          Event.confirmPolled]).take k) ∨
      (∃ k i s, tr =
        ([Event.assembled i, Event.solBalanceChecked, Event.tokenBalanceChecked,
          Event.submitted s, Event.confirmPolled]).take k)) :
    tr.all (fun e => !(isValidationEvt e)) = true ∧
      allBefore isAssembledEvt isBalanceEvt tr = true ∧
      allBefore isBalanceEvt isSubmittedEvt tr = true ∧
      allBefore isSubmittedEvt isConfirmEvt tr = true := by
  rcases hsh with ⟨k, i, s, rfl⟩ | ⟨k, i, s, rfl⟩ <;>
    exact ⟨all_take _ _ _ (by simp [isValidationEvt]),
      allBefore_take _ _ _ _ (by simp [allBefore, isAssembledEvt, isBalanceEvt]),
      allBefore_take _ _ _ _ (by simp [allBefore, isBalanceEvt, isSubmittedEvt]),
      allBefore_take _ _ _ _ (by simp [allBefore, isSubmittedEvt, isConfirmEvt])⟩

/-- C7 (amended): in every run, address/token validation completes before
the balance checks and before assembly of the transaction; transaction
assembly completes before the balance checks (not after them — the fee is
computed from the already-assembled transaction); the balance checks
complete before submission; and submission completes before confirmation
polling begins. -/
theorem c7_amended_stage_order (svc0 : SolanaPayoutService) (conn : Connection) :
    allBefore isValidationEvt isBalanceEvt (runPayout svc0 conn).1 = true ∧
      allBefore isValidationEvt isAssembledEvt (runPayout svc0 conn).1 = true ∧
      allBefore isAssembledEvt isBalanceEvt (runPayout svc0 conn).1 = true ∧
      allBefore isBalanceEvt isSubmittedEvt (runPayout svc0 conn).1 = true ∧
      allBefore isSubmittedEvt isConfirmEvt (runPayout svc0 conn).1 = true := by
  obtain ⟨k1, hk1⟩ := initService_trace_shape svc0 conn
  match hinit : initService svc0 conn with
  | (tr1, Except.error e) =>
    rw [hinit] at hk1
    simp only at hk1
    subst hk1
    simp only [runPayout, hinit]
    refine ⟨?_, ?_, ?_, ?_, ?_⟩ <;>
      · apply allBefore_of_no_q
        apply all_take
        simp [isBalanceEvt, isAssembledEvt, isSubmittedEvt, isConfirmEvt]
  | (tr1, Except.ok mint) =>
    rw [hinit] at hk1
    simp only at hk1
    subst hk1
    simp only [runPayout, hinit]
    obtain ⟨hval, hab, hbs, hsc⟩ :=
      execTrace_props _ (executePayment_trace_shape { svc0 with mint := mint } conn)
    have h1 : ∀ q : Event → Bool, q Event.tokenValidated = false →
        (∀ a, q (Event.walletValidated a) = false) →
        ([Event.walletValidated svc0.sender, Event.walletValidated svc0.recipient,
          Event.tokenValidated].take k1).all (fun e => !(q e)) = true := by
      intro q h2 h3
      apply all_take
      simp [h2, h3]
    refine ⟨?_, ?_, ?_, ?_, ?_⟩
    · exact allBefore_append_right _ _ _ _
        (h1 _ rfl (fun a => rfl)) (allBefore_of_no_p _ _ _ hval)
    · exact allBefore_append_right _ _ _ _
        (h1 _ rfl (fun a => rfl)) (allBefore_of_no_p _ _ _ hval)
    · exact allBefore_append_right _ _ _ _ (h1 _ rfl (fun a => rfl)) hab
    · exact allBefore_append_right _ _ _ _ (h1 _ rfl (fun a => rfl)) hbs
    · exact allBefore_append_right _ _ _ _ (h1 _ rfl (fun a => rfl)) hsc

/-- C7 counterexample: in a successful SOL-transfer run the balance check
does not precede transaction assembly — the trace contains the assembly
event strictly before the SOL-balance-check event, so the claimed
BalanceGuard-before-TransactionAssembler ordering is false. -/
theorem c7_counterexample_assembly_before_balance :
    allBefore isBalanceEvt isAssembledEvt (runPayout svcSol connOk).1 = false := by
  have htokP : toUpperCase "SOL" = "SOL" := by decide
  norm_num [runPayout, initService, executePayment, executeSolTransfer,
    validateWalletAddress, validateSenderSolBalance, sendTransaction,
    confirmTransaction, confirmGo, checkAccountExists, isTokenTransfer, htokP,
    svcSol, connOk, mintX, allBefore, isBalanceEvt, isAssembledEvt,
    LAMPORTS_PER_SOL]

/-- Appending to a non-empty string yields a non-empty string. -/
theorem append_left_ne_empty (s t : String) (h : s ≠ "") : s ++ t ≠ "" := by
  intro heq
  apply h
  have hdata : s.data ++ t.data = ([] : List Char) := by
    have h2 := congrArg String.data heq
    exact h2
  rcases List.append_eq_nil.mp hdata with ⟨hs, -⟩
  cases s
  simp_all

/-- Every engine-generated error message is non-empty: an empty message can
only come from a propagated lower-layer exception. -/
theorem message_empty_is_raised (e : PayoutError)
    (h : PayoutError.message e = "") : ∃ m, e = PayoutError.raised m := by
  cases e
  case raised m => exact ⟨m, rfl⟩
  all_goals
    refine absurd h ?_
    simp only [PayoutError.message]
    repeat apply append_left_ne_empty
    decide

/-- C8 (amended): all three outputs are always set: success is `"true"` or
`"false"`; on success the error output is empty and the transaction output
is exactly the returned signature; on failure the transaction output is
empty and the error output is the failure's message — which is non-empty
for every engine-generated failure, and can be empty only when a
lower-layer exception with an empty message is propagated verbatim. -/
theorem c8_amended_output_consistency (inp : Inputs) (conn : Connection) :
    ((runAction inp conn).success = "true" ∨ (runAction inp conn).success = "false") ∧
      ((runAction inp conn).success = "true" →
        (runAction inp conn).error = "" ∧
          actionResult inp conn = Except.ok (runAction inp conn).transaction) ∧
      ((runAction inp conn).success = "false" →
        (runAction inp conn).transaction = "" ∧
          ∃ e, actionResult inp conn = Except.error e ∧
            (runAction inp conn).error = PayoutError.message e) ∧
      (∀ e, actionResult inp conn = Except.error e →
        PayoutError.message e = "" → ∃ m, e = PayoutError.raised m) := by
  match hr : actionResult inp conn with
  | Except.ok sig =>
    refine ⟨Or.inl ?_, fun _ => ⟨?_, ?_⟩, fun hfalse => ?_, fun e he _ => ?_⟩ <;>
      simp_all [runAction, hr]
  | Except.error e =>
    refine ⟨Or.inr ?_, fun htrue => ?_, fun _ => ⟨?_, e, ?_, ?_⟩, fun e2 he2 hmsg => ?_⟩
    · simp [runAction, hr]
    · simp [runAction, hr] at htrue
    · simp [runAction, hr]
    · rfl
    · simp [runAction, hr]
    · exact message_empty_is_raised e2 hmsg

/-- C8 counterexample: when a lower-layer call throws an exception whose
message is empty (here the blockhash fetch), the driver reports
success `"false"` with an empty error output — so "error is empty iff
success is true" is false as stated. -/
theorem c8_counterexample_empty_error :
    (runAction inpOk connBadBh).error = "" ∧
      (runAction inpOk connBadBh).success ≠ "true" := by
  have htokP : toUpperCase "SOL" = "SOL" := by decide
  have hnet : "devnet" ∈ NETWORK_URLS := by decide
  norm_num [runAction, actionResult, mkService, runPayout, initService,
    executePayment, executeSolTransfer, validateWalletAddress, isTokenTransfer,
    htokP, hnet, inpOk, connBadBh, connOk, mintX, PayoutError.message]
  decide

/-- C8 witness: on a fully successful run the outputs are
`("true", "", "SIG")`, consistent with the returned signature. -/
theorem c8_amended_output_consistency_witness :
    (runAction inpOk connOk).error = "" ∧
      actionResult inpOk connOk = Except.ok (runAction inpOk connOk).transaction :=
  (c8_amended_output_consistency inpOk connOk).2.1 (by
    have htokP : toUpperCase "SOL" = "SOL" := by decide
    have hnet : "devnet" ∈ NETWORK_URLS := by decide
    norm_num [runAction, actionResult, mkService, runPayout, initService,
      executePayment, executeSolTransfer, validateWalletAddress,
      validateSenderSolBalance, sendTransaction, confirmTransaction, confirmGo,
      checkAccountExists, isTokenTransfer, htokP, hnet, inpOk, connOk, mintX,
      LAMPORTS_PER_SOL])

end SolanaPayout
